import Mathlib

/-!
Verification of the configuration semantics of
`nemo/collections/asr/data/audio_to_text_dali.py`
(class `AudioToCharDALIDataset`).

The module is declarative configuration glue: it derives a character
vocabulary bijection, normalizes a loosely-typed preprocessor
configuration record, resolves sharding, and assembles a fixed DALI
operator graph.  We embed those computations shallowly: Python dicts
built by insertion become finite maps built by the same insertion loop,
Python floats become exact rationals (every literal in the source is a
decimal literal), fallible construction steps return `Except`, and the
operator graph becomes an inductive term recording each operator node
and the configuration values forwarded to it.
-/

set_option maxHeartbeats 1000000

namespace DaliDataset

/-! ## Label vocabulary maps

Source lines 90 to 95:

    self.label2id, self.id2label = {}, {}
    for label_id, label in enumerate(self.labels):
        self.label2id[ord(label)] = label_id
        self.id2label[label_id] = ord(label)

A Python dict insertion overwrites any previous binding of the key, so
we model each dict as a function `Nat -> Option Nat` updated in loop
order.  `Char.toNat` plays the role of `ord`. -/

/-- One pass of the enumerate loop: `i` is the running `label_id`, the
two accumulators are the `label2id` and `id2label` dicts. -/
def buildMapsGo : Nat → List Char → (Nat → Option Nat) → (Nat → Option Nat) →
    (Nat → Option Nat) × (Nat → Option Nat)
  | _, [], l2i, i2l => (l2i, i2l)
  | i, c :: cs, l2i, i2l =>
      buildMapsGo (i + 1) cs
        (fun k => if k = c.toNat then some i else l2i k)
        (fun k => if k = i then some c.toNat else i2l k)

/-- The `label2id` dict: character code to dense integer id. -/
def label2id (labels : List Char) : Nat → Option Nat :=
  (buildMapsGo 0 labels (fun _ => none) (fun _ => none)).1

/-- The `id2label` dict: dense integer id back to character code. -/
def id2label (labels : List Char) : Nat → Option Nat :=
  (buildMapsGo 0 labels (fun _ => none) (fun _ => none)).2

theorem char_toNat_injective : Function.Injective Char.toNat := by
  intro a b h
  cases a with
  | mk av ah =>
    cases b with
    | mk bv bh =>
      simp only [Char.toNat] at h
      congr 1
      exact UInt32.ext h

theorem buildMapsGo_snd (cs : List Char) :
    ∀ (i : Nat) (l2i i2l : Nat → Option Nat) (k : Nat),
      (buildMapsGo i cs l2i i2l).2 k =
        if i ≤ k ∧ k < i + cs.length then (cs.get? (k - i)).map Char.toNat
        else i2l k := by
  induction cs with
  | nil =>
    intro i l2i i2l k
    rw [buildMapsGo]
    rw [if_neg (by simp only [List.length_nil]; omega)]
  | cons c cs ih =>
    intro i l2i i2l k
    rw [buildMapsGo, ih]
    simp only [List.length_cons]
    by_cases hk : i + 1 ≤ k ∧ k < i + 1 + cs.length
    · rw [if_pos hk, if_pos (by omega)]
      have hki : k - i = (k - (i + 1)) + 1 := by omega
      rw [hki]
      rfl
    · rw [if_neg hk]
      by_cases hke : k = i
      · subst hke
        rw [if_pos rfl, if_pos (by omega)]
        simp
      · rw [if_neg hke, if_neg (by omega)]

theorem buildMapsGo_fst_notMem (cs : List Char) :
    ∀ (i : Nat) (l2i i2l : Nat → Option Nat) (k : Nat),
      k ∉ cs.map Char.toNat →
      (buildMapsGo i cs l2i i2l).1 k = l2i k := by
  induction cs with
  | nil =>
    intro i l2i i2l k _
    rfl
  | cons c cs ih =>
    intro i l2i i2l k hk
    simp only [List.map_cons, List.mem_cons, not_or] at hk
    rw [buildMapsGo, ih _ _ _ _ hk.2, if_neg hk.1]

theorem buildMapsGo_fst_nodup (cs : List Char) :
    ∀ (i : Nat) (l2i i2l : Nat → Option Nat) (j : Nat) (h : j < cs.length),
      (cs.map Char.toNat).Nodup →
      (buildMapsGo i cs l2i i2l).1 (cs.get ⟨j, h⟩).toNat = some (i + j) := by
  induction cs with
  | nil =>
    intro i l2i i2l j h
    exact absurd h (by simp)
  | cons c cs ih =>
    intro i l2i i2l j h hnd
    simp only [List.map_cons, List.nodup_cons] at hnd
    match j with
    | 0 =>
      rw [buildMapsGo]
      have : (c :: cs).get ⟨0, h⟩ = c := rfl
      rw [this, buildMapsGo_fst_notMem cs _ _ _ _ hnd.1, if_pos rfl]
      simp
    | j + 1 =>
      rw [buildMapsGo]
      have hg : (c :: cs).get ⟨j + 1, h⟩ = cs.get ⟨j, by simpa using h⟩ := rfl
      rw [hg, ih _ _ _ j _ hnd.2]
      congr 1
      omega

/-- Claim C1: for a vocabulary of distinct characters, the forward and
inverse label maps are exact inverses, with ids assigned densely in
vocabulary order `0..N-1`: position `j` of the vocabulary maps through
`label2id` to id `j`, `id2label` sends `j` back to that character code
(hence `id2label (label2id (ord c)) = ord c` for every vocabulary
character `c`), and no id outside `0..N-1` is assigned. -/
theorem label_maps_inverse (labels : List Char) (hnd : labels.Nodup) :
    (∀ (j : Nat) (h : j < labels.length),
        label2id labels (labels.get ⟨j, h⟩).toNat = some j ∧
        id2label labels j = some (labels.get ⟨j, h⟩).toNat) ∧
    (∀ j : Nat, labels.length ≤ j → id2label labels j = none) := by
  have hmap : (labels.map Char.toNat).Nodup := hnd.map char_toNat_injective
  constructor
  · intro j h
    constructor
    · have := buildMapsGo_fst_nodup labels 0 (fun _ => none) (fun _ => none) j h hmap
      simpa [label2id] using this
    · rw [id2label, buildMapsGo_snd, if_pos (by omega)]
      have hg : labels.get? j = some (labels.get ⟨j, h⟩) := List.get?_eq_get h
      rw [Nat.sub_zero, hg]
      rfl
  · intro j hj
    rw [id2label, buildMapsGo_snd, if_neg (by omega)]

/-- Claim C1 witness: concrete three-character vocabulary. -/
theorem label_maps_inverse_witness :
    label2id ['a', 'b', 'c'] ('b'.toNat) = some 1 ∧
    id2label ['a', 'b', 'c'] 1 = some ('b'.toNat) := by
  have h := label_maps_inverse ['a', 'b', 'c'] (by decide)
  have h1 := (h.1 1 (by decide)).1
  have h2 := (h.1 1 (by decide)).2
  exact ⟨h1, h2⟩

/-! ## Preprocessor configuration normalization

Source lines 100 to 204.  Python floats are embedded as exact rationals
(every numeric literal in the source is a decimal literal), the loosely
typed `params` dict becomes a record of optional fields (`none` models
an absent key), and each `raise ValueError` or failing `assert` becomes
an `Except.error` carrying a structured error value that names the
offending field and the rejected value. -/

/-- Truncation toward zero, the behaviour of the Python `int()` builtin
on a non-integral number (source lines 116 to 117). -/
def pyInt (q : Rat) : Int :=
  if q < 0 then -Rat.floor (-q) else Rat.floor q

/-- Feature type selected from `preprocessor_cfg.cls` (source lines 102
to 107). -/
inductive FeatureType where
  | mel_spectrogram
  | mfcc
deriving DecidableEq, Repr

/-- Structured stand-in for the exceptions raised during construction.
Each constructor records the offending field and the rejected value,
mirroring the message of the corresponding `ValueError` or assertion. -/
inductive ConfigError where
  | missingLabels
  | unsupportedPreprocessor (cls : String)
  | badNormalize (got : String)
  | badWindow (got : String)
  | frameSplicingNotImplemented (got : Nat)
  | badLogZeroGuardType (got : String)
  | badLogZeroGuardValue (got : String)
  | badMagPower (got : Rat)
deriving DecidableEq, Repr

/-- Descriptor of the torch window tensor stored in `self.window`
(source lines 131 to 151): which torch factory built it and the length
it was built with.  `torch.hamming_window` and friends are called with
`periodic=False`; the tensor is a deterministic function of this data. -/
inductive WindowTensor where
  | ones (size : Int)
  | hamming (size : Int)
  | blackman (size : Int)
  | bartlett (size : Int)
deriving DecidableEq, Repr

/-- Resolution of `preprocessor_cfg.cls` (source lines 102 to 107); an
unsupported class name trips `assert False`. -/
def featureTypeOf (cls : String) : Except ConfigError FeatureType :=
  if cls = "nemo.collections.asr.modules.AudioToMelSpectrogramPreprocessor" then
    Except.ok FeatureType.mel_spectrogram
  else if cls = "nemo.collections.asr.modules.AudioToMFCCPreprocessor" then
    Except.ok FeatureType.mfcc
  else
    Except.error (ConfigError.unsupportedPreprocessor cls)

/-- Normalization axis resolution (source lines 119 to 129). -/
def normalizationAxes (normalize : String) : Except ConfigError (List Nat) :=
  if normalize = "per_feature" then Except.ok [1]
  else if normalize = "all_features" then Except.ok [0, 1]
  else Except.error (ConfigError.badNormalize normalize)

/-- Window resolution (source lines 131 to 151).  An absent key and the
values `None` and `hann` leave `self.window = None` (Hann is the DALI
default); `ones` builds a ones tensor of `window_size` entries; the
three names in `torch_windows` call the corresponding torch factory;
for any other name `torch_windows.get` yields `None`, calling it raises
inside the bare `except`, and a `ValueError` is raised. -/
def resolveWindow (window_name : Option String) (window_size : Int) :
    Except ConfigError (Option WindowTensor) :=
  match window_name with
  | none => Except.ok none
  | some name =>
      if name = "hann" then Except.ok none
      else if name = "ones" then Except.ok (some (WindowTensor.ones window_size))
      else if name = "hamming" then Except.ok (some (WindowTensor.hamming window_size))
      else if name = "blackman" then Except.ok (some (WindowTensor.blackman window_size))
      else if name = "bartlett" then Except.ok (some (WindowTensor.bartlett window_size))
      else Except.error (ConfigError.badWindow name)

/-- Frame splicing guard (source lines 165 to 166): the key may be
absent; when present its value must be `1`. -/
def checkFrameSplicing : Option Nat → Except ConfigError Unit
  | none => Except.ok ()
  | some v => if v = 1 then Except.ok () else Except.error (ConfigError.frameSplicingNotImplemented v)

/-- Zero-guard type check (source lines 175 to 181). -/
def checkLogZeroGuardType (t : String) : Except ConfigError String :=
  if t = "add" ∨ t = "clamp" then Except.ok t
  else Except.error (ConfigError.badLogZeroGuardType t)

/-- Smallest positive normal binary32 value, `torch.finfo(torch.float32).tiny`. -/
def float32Tiny : Rat := 1 / 2 ^ 126

/-- Machine epsilon of binary32, `torch.finfo(torch.float32).eps`. -/
def float32Eps : Rat := 1 / 2 ^ 23

/-- Zero-guard value resolution (source lines 183 to 194): a numeric
value passes through unchanged; the strings `tiny` and `eps` resolve to
the corresponding `torch.finfo(torch.float32)` constants; any other
string raises. -/
def resolveLogZeroGuardValue : String ⊕ Rat → Except ConfigError Rat
  | Sum.inr q => Except.ok q
  | Sum.inl s =>
      if s = "tiny" then Except.ok float32Tiny
      else if s = "eps" then Except.ok float32Eps
      else Except.error (ConfigError.badLogZeroGuardValue s)

/-- Magnitude power check (source lines 196 to 201). -/
def checkMagPower (p : Rat) : Except ConfigError Rat :=
  if p ≠ 1 ∧ p ≠ 2 then Except.error (ConfigError.badMagPower p) else Except.ok p

/-- The `preprocessor_cfg.params` dict: one optional field per key the
source reads.  `none` models an absent key.  The `window` key may be
present with value `None`, hence the nested option; the zero-guard
value may be a string or a number, hence the sum. -/
structure PreprocParams where
  dither : Option Rat := none
  preemph : Option Rat := none
  window_size : Option Rat := none
  window_stride : Option Rat := none
  sample_rate : Option Nat := none
  normalize : Option String := none
  window : Option (Option String) := none
  n_fft : Option Nat := none
  n_mels : Option Nat := none
  n_mfcc : Option Nat := none
  features : Option Nat := none
  frame_splicing : Option Nat := none
  lowfreq : Option Rat := none
  highfreq : Option Rat := none
  log : Option Bool := none
  log_zero_guard_type : Option String := none
  log_zero_guard_value : Option (String ⊕ Rat) := none
  mag_power : Option Rat := none
  pad_to : Option Nat := none
  pad_value : Option Rat := none
deriving DecidableEq

/-- The normalized parameter record: the `self.*` attributes assigned
by source lines 111 to 204. -/
structure NormalizedParams where
  dither : Rat
  preemph : Rat
  window_size_sec : Rat
  window_stride_sec : Rat
  sample_rate : Nat
  window_size : Int
  window_stride : Int
  normalization_axes : List Nat
  window : Option WindowTensor
  n_fft : Option Nat
  n_mels : Nat
  n_mfcc : Nat
  freq_low : Rat
  freq_high : Rat
  log_features : Bool
  log_zero_guard_type : String
  log_zero_guard_value : Rat
  mag_power : Rat
  pad_to : Nat
  pad_value : Rat
deriving DecidableEq

/-- Parameter normalization, source lines 110 to 204, in source order.
Note line 117 of the source computes `self.window_stride` from
`self.window_size_sec`, not from `self.window_stride_sec`; the
embedding reproduces that. -/
def normalizeParams (params : PreprocParams) (sample_rate : Nat)
    (feature_type : FeatureType) : Except ConfigError NormalizedParams := do
  let dither := params.dither.getD 1e-5
  let preemph := params.preemph.getD 0.97
  let window_size_sec := params.window_size.getD 0.02
  let window_stride_sec := params.window_stride.getD 0.01
  let sr := params.sample_rate.getD sample_rate
  let window_size := pyInt (window_size_sec * (sr : Rat))
  let window_stride := pyInt (window_size_sec * (sr : Rat))
  let axes ← normalizationAxes (params.normalize.getD "per_feature")
  let win ← resolveWindow (params.window.getD none) window_size
  let n_mels0 := params.n_mels.getD 64
  let n_mfcc0 := params.n_mfcc.getD 64
  let features := params.features.getD 0
  let nm :=
    if features > 0 then
      match feature_type with
      | FeatureType.mel_spectrogram => (features, n_mfcc0)
      | FeatureType.mfcc => (n_mels0, features)
    else (n_mels0, n_mfcc0)
  let _ ← checkFrameSplicing params.frame_splicing
  let freq_low := params.lowfreq.getD 0.0
  let freq_high := params.highfreq.getD ((sr : Rat) / 2)
  let log_features := params.log.getD true
  let lzgt ← checkLogZeroGuardType (params.log_zero_guard_type.getD "add")
  let lzgv ← resolveLogZeroGuardValue (params.log_zero_guard_value.getD (Sum.inr 1e-5))
  let mp ← checkMagPower (params.mag_power.getD 2)
  return { dither := dither, preemph := preemph,
           window_size_sec := window_size_sec, window_stride_sec := window_stride_sec,
           sample_rate := sr, window_size := window_size, window_stride := window_stride,
           normalization_axes := axes, window := win,
           n_fft := params.n_fft, n_mels := nm.1, n_mfcc := nm.2,
           freq_low := freq_low, freq_high := freq_high, log_features := log_features,
           log_zero_guard_type := lzgt, log_zero_guard_value := lzgv,
           mag_power := mp, pad_to := params.pad_to.getD 16,
           pad_value := params.pad_value.getD 0.0 }

/-! ## Constructor checks: labels and sharding -/

/-- Vocabulary presence check, source lines 84 to 88: only `labels is
None` raises; any present value, the empty vocabulary included, passes. -/
def checkLabels : Option (List Char) → Except ConfigError (List Char)
  | none => Except.error ConfigError.missingLabels
  | some ls => Except.ok ls

/-- Shard resolution, source lines 77 to 82. -/
def shardConfig (global_rank world_size : Int) : Option Int × Option Int :=
  if world_size > 1 then (some global_rank, some world_size) else (none, none)

/-! ## Reduction helpers for `Except` -/

@[simp] theorem exceptBind_ok {ε α β : Type} (a : α) (f : α → Except ε β) :
    Except.bind (Except.ok a) f = f a := rfl

@[simp] theorem exceptBind_error {ε α β : Type} (e : ε) (f : α → Except ε β) :
    Except.bind (Except.error e : Except ε α) f = Except.error e := rfl

@[simp] theorem exceptMap_ok {ε α β : Type} (f : α → β) (a : α) :
    Except.map f (Except.ok a : Except ε α) = Except.ok (f a) := rfl

@[simp] theorem exceptMap_error {ε α β : Type} (f : α → β) (e : ε) :
    Except.map f (Except.error e : Except ε α) = Except.error e := rfl

/-- The normalized record produced when every fallible check succeeds,
written out once so that `normalizeParams` can be re-expressed as an
explicit chain of binds. -/
def assembleParams (params : PreprocParams) (sample_rate : Nat)
    (feature_type : FeatureType) (axes : List Nat) (win : Option WindowTensor)
    (lzgt : String) (lzgv : Rat) (mp : Rat) : NormalizedParams :=
  let window_size_sec := params.window_size.getD 0.02
  let sr := params.sample_rate.getD sample_rate
  let n_mels0 := params.n_mels.getD 64
  let n_mfcc0 := params.n_mfcc.getD 64
  let features := params.features.getD 0
  let nm :=
    if features > 0 then
      match feature_type with
      | FeatureType.mel_spectrogram => (features, n_mfcc0)
      | FeatureType.mfcc => (n_mels0, features)
    else (n_mels0, n_mfcc0)
  { dither := params.dither.getD 1e-5, preemph := params.preemph.getD 0.97,
    window_size_sec := window_size_sec, window_stride_sec := params.window_stride.getD 0.01,
    sample_rate := sr, window_size := pyInt (window_size_sec * (sr : Rat)),
    window_stride := pyInt (window_size_sec * (sr : Rat)),
    normalization_axes := axes, window := win,
    n_fft := params.n_fft, n_mels := nm.1, n_mfcc := nm.2,
    freq_low := params.lowfreq.getD 0.0, freq_high := params.highfreq.getD ((sr : Rat) / 2),
    log_features := params.log.getD true,
    log_zero_guard_type := lzgt, log_zero_guard_value := lzgv,
    mag_power := mp, pad_to := params.pad_to.getD 16,
    pad_value := params.pad_value.getD 0.0 }

theorem normalizeParams_eq (params : PreprocParams) (sample_rate : Nat)
    (feature_type : FeatureType) :
    normalizeParams params sample_rate feature_type =
      Except.bind (normalizationAxes (params.normalize.getD "per_feature")) (fun axes =>
      Except.bind (resolveWindow (params.window.getD none)
          (pyInt ((params.window_size.getD 0.02) * ((params.sample_rate.getD sample_rate) : Rat)))) (fun win =>
      Except.bind (checkFrameSplicing params.frame_splicing) (fun _ =>
      Except.bind (checkLogZeroGuardType (params.log_zero_guard_type.getD "add")) (fun lzgt =>
      Except.bind (resolveLogZeroGuardValue (params.log_zero_guard_value.getD (Sum.inr 1e-5))) (fun lzgv =>
      Except.bind (checkMagPower (params.mag_power.getD 2)) (fun mp =>
      Except.ok (assembleParams params sample_rate feature_type axes win lzgt lzgv mp))))))) := rfl

/-- Normalization of the all-defaults configuration, shared by the
claims about the default table and the window stride. -/
theorem normalizeParams_default (sr : Nat) (ft : FeatureType) :
    normalizeParams {} sr ft = Except.ok {
      dither := 1e-5, preemph := 0.97, window_size_sec := 0.02, window_stride_sec := 0.01,
      sample_rate := sr, window_size := pyInt (0.02 * (sr : Rat)),
      window_stride := pyInt (0.02 * (sr : Rat)),
      normalization_axes := [1], window := none, n_fft := none, n_mels := 64, n_mfcc := 64,
      freq_low := 0.0, freq_high := (sr : Rat) / 2, log_features := true,
      log_zero_guard_type := "add", log_zero_guard_value := 1e-5, mag_power := 2,
      pad_to := 16, pad_value := 0.0 } := rfl

/-- Claim C2: a preprocessor configuration omitting every optional field
normalizes to exactly the documented default record: dither `1e-5`,
preemph `0.97`, window size `0.02` s, window stride `0.01` s,
per-feature normalization (axis set `{1}`), Hann window (stored as
`None`), `n_fft` auto (`None`), `n_mels = n_mfcc = 64` (`features = 0`
overrides neither), lowfreq `0.0`, highfreq `sample_rate / 2`,
log `true`, zero-guard type `add` with value `1e-5`, mag power `2`,
`pad_to = 16`, pad value `0.0`. -/
theorem default_preprocessor_record (sr : Nat) (ft : FeatureType) :
    normalizeParams {} sr ft = Except.ok {
      dither := 1e-5, preemph := 0.97, window_size_sec := 0.02, window_stride_sec := 0.01,
      sample_rate := sr, window_size := pyInt (0.02 * (sr : Rat)),
      window_stride := pyInt (0.02 * (sr : Rat)),
      normalization_axes := [1], window := none, n_fft := none, n_mels := 64, n_mfcc := 64,
      freq_low := 0.0, freq_high := (sr : Rat) / 2, log_features := true,
      log_zero_guard_type := "add", log_zero_guard_value := 1e-5, mag_power := 2,
      pad_to := 16, pad_value := 0.0 } :=
  normalizeParams_default sr ft

/-- Claim C3: at the default configuration with sample rate 16000 the
window length is `int(0.02 * 16000) = 320` as claimed, but the window
step is also 320, not the claimed `int(0.01 * 16000) = 160`: source
line 117 computes the stride from `window_size_sec` instead of
`window_stride_sec` (which line 114 reads and then never uses). -/
theorem window_stride_eval :
    (normalizeParams {} 16000 FeatureType.mel_spectrogram).map
        (fun n => (n.window_size, n.window_stride)) = Except.ok (320, 320) ∧
    pyInt (0.01 * (16000 : Rat)) = 160 := by
  have hp : (0.02 : Rat) * ((16000 : Nat) : Rat) = 320 := by norm_num
  have h320 : pyInt (0.02 * ((16000 : Nat) : Rat)) = 320 := by
    rw [show pyInt (0.02 * ((16000 : Nat) : Rat)) = pyInt 320 from by rw [hp]]
    decide
  constructor
  · rw [normalizeParams_default 16000 FeatureType.mel_spectrogram, exceptMap_ok]
    simp only [h320]
  · have hq : (0.01 : Rat) * 16000 = 160 := by norm_num
    rw [show pyInt (0.01 * (16000 : Rat)) = pyInt 160 from by rw [hq]]
    decide

/-- Claim C4 counterexample: an empty but present vocabulary passes the
vocabulary check (source line 85 tests `labels is None` only), so an
empty vocabulary does not fail at construction as claimed. -/
theorem empty_labels_pass_check : checkLabels (some []) = Except.ok [] := rfl

/-- Claim C4 (amended): construction fails on the vocabulary check
exactly when the vocabulary is absent (`labels=None`); every present
vocabulary, the empty one included, passes the check. -/
theorem labels_check_spec (ls : List Char) :
    checkLabels none = Except.error ConfigError.missingLabels ∧
    checkLabels (some ls) = Except.ok ls :=
  ⟨rfl, rfl⟩

/-- Claim C5: `normalize` equal to `per_feature` yields normalization
axis set `{1}`, `all_features` yields `{0, 1}`, and any other value
raises a `ValueError` at construction (source lines 119 to 129). -/
theorem normalize_axes_cases (s : String) (sr : Nat) (ft : FeatureType) :
    (normalizeParams { normalize := some s } sr ft).map NormalizedParams.normalization_axes =
      (if s = "per_feature" then Except.ok [1]
       else if s = "all_features" then Except.ok [0, 1]
       else Except.error (ConfigError.badNormalize s)) := by
  rw [normalizeParams_eq]
  by_cases h1 : s = "per_feature"
  · subst h1; rfl
  · by_cases h2 : s = "all_features"
    · subst h2; rfl
    · rw [if_neg h1, if_neg h2]
      have hax : normalizationAxes s = Except.error (ConfigError.badNormalize s) := by
        unfold normalizationAxes
        rw [if_neg h1, if_neg h2]
      dsimp only [Option.getD_some, Option.getD_none]
      rw [hax, exceptBind_error, exceptMap_error]

/-- Claim C6: a numeric `log_zero_guard_value` passes through
unchanged; the string `tiny` resolves to the smallest positive normal
binary32 value `2 ^ -126` and the string `eps` to the binary32 machine
epsilon `2 ^ -23` (the working precision is float32: the source reads
`torch.finfo(torch.float32)`); any other string raises a `ValueError`
at construction (source lines 183 to 194). -/
theorem log_zero_guard_value_cases (v : String ⊕ Rat) (sr : Nat) (ft : FeatureType) :
    (normalizeParams { log_zero_guard_value := some v } sr ft).map
        NormalizedParams.log_zero_guard_value =
      (match v with
       | Sum.inr q => Except.ok q
       | Sum.inl s =>
           if s = "tiny" then Except.ok ((1 : Rat) / 2 ^ 126)
           else if s = "eps" then Except.ok ((1 : Rat) / 2 ^ 23)
           else Except.error (ConfigError.badLogZeroGuardValue s)) := by
  have key : normalizeParams { log_zero_guard_value := some v } sr ft =
      Except.bind (resolveLogZeroGuardValue v) (fun lzgv =>
        Except.ok (assembleParams { log_zero_guard_value := some v } sr ft
          [1] none "add" lzgv 2)) := rfl
  cases v with
  | inr q => rfl
  | inl s =>
    by_cases h1 : s = "tiny"
    · subst h1; rfl
    · by_cases h2 : s = "eps"
      · subst h2; rfl
      · have hv : resolveLogZeroGuardValue (Sum.inl s) =
            Except.error (ConfigError.badLogZeroGuardValue s) := by
          unfold resolveLogZeroGuardValue
          dsimp only
          rw [if_neg h1, if_neg h2]
        rw [key, hv, exceptBind_error, exceptMap_error]
        dsimp only
        rw [if_neg h1, if_neg h2]

/-- Claim C7: `mag_power` values `1.0` and `2.0` are accepted
unchanged; any other numeric value raises a `ValueError` naming the
field and the allowed set (source lines 196 to 201; the error value
records the field and the rejected number). -/
theorem mag_power_cases (q : Rat) (sr : Nat) (ft : FeatureType) :
    (normalizeParams { mag_power := some q } sr ft).map NormalizedParams.mag_power =
      (if q ≠ 1 ∧ q ≠ 2 then Except.error (ConfigError.badMagPower q) else Except.ok q) := by
  have key : normalizeParams { mag_power := some q } sr ft =
      Except.bind (checkMagPower q) (fun mp =>
        Except.ok (assembleParams { mag_power := some q } sr ft
          [1] none "add" 1e-5 mp)) := rfl
  by_cases hq : q ≠ 1 ∧ q ≠ 2
  · have hc : checkMagPower q = Except.error (ConfigError.badMagPower q) := by
      unfold checkMagPower
      rw [if_pos hq]
    rw [key, hc, exceptBind_error, exceptMap_error, if_pos hq]
  · have hc : checkMagPower q = Except.ok q := by
      unfold checkMagPower
      rw [if_neg hq]
    rw [key, hc, exceptBind_ok, exceptMap_ok, if_neg hq]
    rfl

/-- Claim C8: with more than one worker the shard id is the rank of the
caller and the shard count is the worker count; with at most one worker
no shard id or shard count is assigned (both stay `None`). -/
theorem shard_config_spec (g w : Int) :
    (1 < w → shardConfig g w = (some g, some w)) ∧
    (w ≤ 1 → shardConfig g w = (none, none)) := by
  constructor
  · intro h
    rw [shardConfig, if_pos h]
  · intro h
    rw [shardConfig, if_neg (not_lt.mpr h)]

/-- Claim C8 witness: world size 4 and rank 2 give shard 2 of 4; world
size 0 disables sharding. -/
theorem shard_config_spec_witness :
    shardConfig 2 4 = (some 2, some 4) ∧ shardConfig 0 0 = (none, none) :=
  ⟨(shard_config_spec 2 4).1 (by norm_num), (shard_config_spec 0 0).2 (by norm_num)⟩

/-! ## Pipeline graph

Source lines 206 to 291 assemble a DALI operator graph.  Each operator
invocation becomes a node constructor carrying exactly the
configuration values the source forwards to it, so two constructions
produce equal graph terms exactly when they declare the same graph.
`to_decibels` receives `multiplier=math.log(10)` (a fixed constant),
`reference=1.0` and `cutoff_db=math.log(log_zero_guard_value)` in the
source; the natural logarithm is injective, so the node records the
reference and the guard value itself. -/

inductive DNode where
  | nemo_asr_reader (manifest_filepaths : List String) (dtype_float downmix : Bool)
      (sample_rate : Rat) (min_duration max_duration : Rat)
      (read_sample_rate read_text random_shuffle : Bool)
      (shard_id num_shards : Option Int)
  | readerAudio (reader : DNode)
  | readerText (reader : DNode)
  | shapes (x : DNode)
  | reshape_flat (x : DNode)
  | pad (x : DNode)
  | pad_aligned (x : DNode) (fill_value : Rat) (axes : List Nat)
      (align : List Int) (shape : List Int)
  | lookup_table (x : DNode) (keys : List Nat) (values : List Rat)
  | gpu (x : DNode)
  | nonsilent_region_start (x : DNode) (cutoff_db : Rat)
  | nonsilent_region_len (x : DNode) (cutoff_db : Rat)
  | slice_axis0 (x anchor shape : DNode)
  | plus (x y : DNode)
  | add_scalar (x : DNode) (c : Rat)
  | scale (c : Rat) (x : DNode)
  | normal_distribution (device : String)
  | preemphasis_filter (x : DNode) (preemph_coeff : Rat)
  | spectrogram (x : DNode) (nfft : Option Nat) (window_length window_step : Int)
  | mel_filter_bank (x : DNode) (sample_rate : Rat) (nfilter : Nat)
      (normalized : Bool) (freq_low freq_high : Rat)
  | mfcc (x : DNode) (n_mffc : Nat)
  | to_decibels (x : DNode) (reference : Rat) (cutoff_guard : Rat)
  | normalize_axes (x : DNode) (axes : List Nat)
  | constant_one_f32
deriving DecidableEq

/-- Constructor arguments that feed graph assembly besides the
normalized preprocessor record. -/
structure PipelineArgs where
  manifest_filepath : String
  min_duration : Rat
  max_duration : Rat
  shuffle : Bool
  device : String
  trim_silence : Bool
  shard_id : Option Int
  num_shards : Option Int
  label2id_keys : List Nat
  label2id_values : List Rat
deriving DecidableEq

/-- The declared pipeline: the four output nodes passed to
`pipe.set_outputs` and the `output_map` names handed to the iterator
adapter (source lines 291 and 304 to 307). -/
structure PipelineGraph where
  out0 : DNode
  out1 : DNode
  out2 : DNode
  out3 : DNode
  output_map : List String
deriving DecidableEq

/-- Graph assembly with a configured preprocessor, source lines 206 to
291 plus the output naming at lines 304 to 307.  The reader sample
rate is `float(self.sample_rate)` (line 210), which with a configured
preprocessor is the normalized record's sample rate.  (Without a
preprocessor, line 210 reads an attribute the constructor never
assigned; no claim depends on that branch and it is not modelled.) -/
def buildGraph (a : PipelineArgs) (ft : FeatureType) (n : NormalizedParams) : PipelineGraph :=
  let reader := DNode.nemo_asr_reader (a.manifest_filepath.splitOn ",") true true
      (n.sample_rate : Rat) a.min_duration a.max_duration false true a.shuffle
      a.shard_id a.num_shards
  let audio0 := DNode.readerAudio reader
  let transcript0 := DNode.readerText reader
  let transcript_len0 := DNode.shapes (DNode.reshape_flat transcript0)
  let transcript1 := DNode.lookup_table (DNode.pad transcript0) a.label2id_keys a.label2id_values
  let transcript := if a.device = "gpu" then DNode.gpu transcript1 else transcript1
  let transcript_len := if a.device = "gpu" then DNode.gpu transcript_len0 else transcript_len0
  let audio :=
    if a.trim_silence then
      DNode.slice_axis0 (if a.device = "gpu" then DNode.gpu audio0 else audio0)
        (DNode.nonsilent_region_start audio0 (-60))
        (DNode.nonsilent_region_len audio0 (-60))
    else if a.device = "gpu" then DNode.gpu audio0 else audio0
  let audio1 :=
    if n.dither > 0 then
      DNode.plus audio (DNode.scale n.dither (DNode.normal_distribution a.device))
    else audio
  let audio2 := if n.preemph > 0 then DNode.preemphasis_filter audio1 n.preemph else audio1
  let spec0 := DNode.spectrogram audio2 n.n_fft n.window_size n.window_stride
  let mel := DNode.mel_filter_bank spec0 (n.sample_rate : Rat) n.n_mels true n.freq_low n.freq_high
  let spec1 :=
    match ft with
    | FeatureType.mel_spectrogram => mel
    | FeatureType.mfcc => DNode.mfcc mel n.n_mfcc
  let spec2 :=
    if n.log_zero_guard_type = "add" then DNode.add_scalar spec1 n.log_zero_guard_value
    else spec1
  let spec3 := DNode.to_decibels spec2 1 n.log_zero_guard_value
  let spec4 := DNode.normalize_axes spec3 n.normalization_axes
  let spec_len := DNode.slice_axis0 (DNode.shapes spec4) DNode.constant_one_f32 DNode.constant_one_f32
  let spec5 := DNode.pad_aligned spec4 n.pad_value [0, 1] [(n.pad_to : Int), 1] [1, -1]
  { out0 := spec5, out1 := spec_len, out2 := transcript, out3 := transcript_len,
    output_map := ["processed_signal", "processed_signal_len", "transcript", "transcript_len"] }

/-- Search a node tree for a `to_decibels` operator. -/
def hasToDecibels : DNode → Bool
  | DNode.to_decibels _ _ _ => true
  | DNode.nemo_asr_reader _ _ _ _ _ _ _ _ _ _ _ => false
  | DNode.readerAudio x => hasToDecibels x
  | DNode.readerText x => hasToDecibels x
  | DNode.shapes x => hasToDecibels x
  | DNode.reshape_flat x => hasToDecibels x
  | DNode.pad x => hasToDecibels x
  | DNode.pad_aligned x _ _ _ _ => hasToDecibels x
  | DNode.lookup_table x _ _ => hasToDecibels x
  | DNode.gpu x => hasToDecibels x
  | DNode.nonsilent_region_start x _ => hasToDecibels x
  | DNode.nonsilent_region_len x _ => hasToDecibels x
  | DNode.slice_axis0 x y z => hasToDecibels x || hasToDecibels y || hasToDecibels z
  | DNode.plus x y => hasToDecibels x || hasToDecibels y
  | DNode.add_scalar x _ => hasToDecibels x
  | DNode.scale _ x => hasToDecibels x
  | DNode.normal_distribution _ => false
  | DNode.preemphasis_filter x _ => hasToDecibels x
  | DNode.spectrogram x _ _ _ => hasToDecibels x
  | DNode.mel_filter_bank x _ _ _ _ _ => hasToDecibels x
  | DNode.mfcc x _ => hasToDecibels x
  | DNode.normalize_axes x _ => hasToDecibels x
  | DNode.constant_one_f32 => false

/-- The window names the source accepts (source lines 131 to 151):
absent key, `None`, `hann`, `ones`, and the three `torch_windows`
entries. -/
def windowNameAccepted (w : Option String) : Prop :=
  w = none ∨ w = some "hann" ∨ w = some "ones" ∨ w = some "hamming" ∨
    w = some "blackman" ∨ w = some "bartlett"

theorem accepted_resolveWindow (w : Option String) (ws : Int)
    (h : windowNameAccepted w) : ∃ t, resolveWindow w ws = Except.ok t := by
  rcases h with h | h | h | h | h | h <;> subst h <;> exact ⟨_, rfl⟩

theorem normalizeParams_ok_inv (p : PreprocParams) (sr : Nat) (ft : FeatureType)
    (n : NormalizedParams) (h : normalizeParams p sr ft = Except.ok n) :
    ∃ axes win lzgt lzgv mp,
      normalizationAxes (p.normalize.getD "per_feature") = Except.ok axes ∧
      resolveWindow (p.window.getD none)
          (pyInt ((p.window_size.getD 0.02) * ((p.sample_rate.getD sr) : Rat))) = Except.ok win ∧
      checkFrameSplicing p.frame_splicing = Except.ok () ∧
      checkLogZeroGuardType (p.log_zero_guard_type.getD "add") = Except.ok lzgt ∧
      resolveLogZeroGuardValue (p.log_zero_guard_value.getD (Sum.inr 1e-5)) = Except.ok lzgv ∧
      checkMagPower (p.mag_power.getD 2) = Except.ok mp ∧
      n = assembleParams p sr ft axes win lzgt lzgv mp := by
  rw [normalizeParams_eq] at h
  cases hax : normalizationAxes (p.normalize.getD "per_feature") with
  | error e => rw [hax, exceptBind_error] at h; exact Except.noConfusion h
  | ok axes =>
  rw [hax, exceptBind_ok] at h
  cases hwin : resolveWindow (p.window.getD none)
      (pyInt ((p.window_size.getD 0.02) * ((p.sample_rate.getD sr) : Rat))) with
  | error e => rw [hwin, exceptBind_error] at h; exact Except.noConfusion h
  | ok win =>
  rw [hwin, exceptBind_ok] at h
  cases hfs : checkFrameSplicing p.frame_splicing with
  | error e => rw [hfs, exceptBind_error] at h; exact Except.noConfusion h
  | ok u =>
  cases u
  rw [hfs, exceptBind_ok] at h
  cases hgt : checkLogZeroGuardType (p.log_zero_guard_type.getD "add") with
  | error e => rw [hgt, exceptBind_error] at h; exact Except.noConfusion h
  | ok lzgt =>
  rw [hgt, exceptBind_ok] at h
  cases hgv : resolveLogZeroGuardValue (p.log_zero_guard_value.getD (Sum.inr 1e-5)) with
  | error e => rw [hgv, exceptBind_error] at h; exact Except.noConfusion h
  | ok lzgv =>
  rw [hgv, exceptBind_ok] at h
  cases hmp : checkMagPower (p.mag_power.getD 2) with
  | error e => rw [hmp, exceptBind_error] at h; exact Except.noConfusion h
  | ok mp =>
  rw [hmp, exceptBind_ok] at h
  exact ⟨axes, win, lzgt, lzgv, mp, rfl, rfl, rfl, rfl, rfl, rfl,
    (Except.ok.inj h).symm⟩

theorem normalizeParams_ok_intro (p : PreprocParams) (sr : Nat) (ft : FeatureType)
    (axes : List Nat) (win : Option WindowTensor) (lzgt : String) (lzgv mp : Rat)
    (hax : normalizationAxes (p.normalize.getD "per_feature") = Except.ok axes)
    (hwin : resolveWindow (p.window.getD none)
        (pyInt ((p.window_size.getD 0.02) * ((p.sample_rate.getD sr) : Rat))) = Except.ok win)
    (hfs : checkFrameSplicing p.frame_splicing = Except.ok ())
    (hgt : checkLogZeroGuardType (p.log_zero_guard_type.getD "add") = Except.ok lzgt)
    (hgv : resolveLogZeroGuardValue (p.log_zero_guard_value.getD (Sum.inr 1e-5)) = Except.ok lzgv)
    (hmp : checkMagPower (p.mag_power.getD 2) = Except.ok mp) :
    normalizeParams p sr ft = Except.ok (assembleParams p sr ft axes win lzgt lzgv mp) := by
  rw [normalizeParams_eq, hax, exceptBind_ok, hwin, exceptBind_ok, hfs, exceptBind_ok,
    hgt, exceptBind_ok, hgv, exceptBind_ok, hmp, exceptBind_ok]

/-- Claim C9: the `window` field is validated and a window tensor is
stored in `self.window`, but the spectrogram operator (source lines 249
to 254) receives only `nfft`, `window_length` and `window_step`, never
the window tensor: two configurations differing only in their `window`
field, both drawn from the accepted set, normalize successfully and
declare identical pipeline graphs. -/
theorem window_field_unused (p : PreprocParams) (w1 w2 : Option (Option String))
    (sr : Nat) (ft : FeatureType) (a : PipelineArgs) (n1 : NormalizedParams)
    (_hw1 : windowNameAccepted (w1.getD none))
    (hw2 : windowNameAccepted (w2.getD none))
    (h1 : normalizeParams { p with window := w1 } sr ft = Except.ok n1) :
    ∃ n2, normalizeParams { p with window := w2 } sr ft = Except.ok n2 ∧
      buildGraph a ft n1 = buildGraph a ft n2 := by
  obtain ⟨axes, win, lzgt, lzgv, mp, hax, hwin, hfs, hgt, hgv, hmp, hn⟩ :=
    normalizeParams_ok_inv _ _ _ _ h1
  obtain ⟨t2, ht2⟩ := accepted_resolveWindow (w2.getD none)
    (pyInt ((p.window_size.getD 0.02) * ((p.sample_rate.getD sr) : Rat))) hw2
  refine ⟨assembleParams { p with window := w2 } sr ft axes t2 lzgt lzgv mp, ?_, ?_⟩
  · exact normalizeParams_ok_intro _ _ _ _ _ _ _ _ hax ht2 hfs hgt hgv hmp
  · rw [hn]
    rfl

/-- Claim C10: the `log` field is read into `self.log_features` (source
line 170) and never used again: two configurations differing only in
their `log` field normalize successfully and declare identical pipeline
graphs, and the declared graph applies `to_decibels` unconditionally. -/
theorem log_field_unused (p : PreprocParams) (b1 b2 : Option Bool)
    (sr : Nat) (ft : FeatureType) (a : PipelineArgs) (n1 : NormalizedParams)
    (h1 : normalizeParams { p with log := b1 } sr ft = Except.ok n1) :
    ∃ n2, normalizeParams { p with log := b2 } sr ft = Except.ok n2 ∧
      buildGraph a ft n1 = buildGraph a ft n2 ∧
      hasToDecibels (buildGraph a ft n1).out0 = true := by
  obtain ⟨axes, win, lzgt, lzgv, mp, hax, hwin, hfs, hgt, hgv, hmp, hn⟩ :=
    normalizeParams_ok_inv _ _ _ _ h1
  refine ⟨assembleParams { p with log := b2 } sr ft axes win lzgt lzgv mp, ?_, ?_, ?_⟩
  · exact normalizeParams_ok_intro _ _ _ _ _ _ _ _ hax hwin hfs hgt hgv hmp
  · rw [hn]
    rfl
  · rw [hn]
    rfl

/-- Concrete constructor arguments used by the hyperproperty witnesses. -/
def exampleArgs : PipelineArgs :=
  { manifest_filepath := "train.json", min_duration := 0, max_duration := 0,
    shuffle := true, device := "gpu", trim_silence := false,
    shard_id := none, num_shards := none,
    label2id_keys := [97, 98], label2id_values := [0, 1] }

/-- The normalized record of the all-defaults configuration at sample
rate 16000, used by the hyperproperty witnesses. -/
def exampleDefaultRecord : NormalizedParams :=
  { dither := 1e-5, preemph := 0.97, window_size_sec := 0.02, window_stride_sec := 0.01,
    sample_rate := 16000, window_size := pyInt (0.02 * ((16000 : Nat) : Rat)),
    window_stride := pyInt (0.02 * ((16000 : Nat) : Rat)),
    normalization_axes := [1], window := none, n_fft := none, n_mels := 64, n_mfcc := 64,
    freq_low := 0.0, freq_high := ((16000 : Nat) : Rat) / 2, log_features := true,
    log_zero_guard_type := "add", log_zero_guard_value := 1e-5, mag_power := 2,
    pad_to := 16, pad_value := 0.0 }

/-- Claim C9 witness: a `hann` configuration and a `ones` configuration
declare the same graph. -/
theorem window_field_unused_witness :
    ∃ n2, normalizeParams { window := some (some "ones") } 16000
        FeatureType.mel_spectrogram = Except.ok n2 ∧
      buildGraph exampleArgs FeatureType.mel_spectrogram exampleDefaultRecord =
        buildGraph exampleArgs FeatureType.mel_spectrogram n2 :=
  window_field_unused {} (some (some "hann")) (some (some "ones")) 16000
    FeatureType.mel_spectrogram exampleArgs exampleDefaultRecord
    (Or.inr (Or.inl rfl)) (Or.inr (Or.inr (Or.inl rfl))) (by rfl)

/-- Claim C10 witness: a `log=false` configuration and a `log=true`
configuration declare the same graph, which contains `to_decibels`. -/
theorem log_field_unused_witness :
    ∃ n2, normalizeParams { log := some true } 16000
        FeatureType.mel_spectrogram = Except.ok n2 ∧
      buildGraph exampleArgs FeatureType.mel_spectrogram
          { exampleDefaultRecord with log_features := false } =
        buildGraph exampleArgs FeatureType.mel_spectrogram n2 ∧
      hasToDecibels (buildGraph exampleArgs FeatureType.mel_spectrogram
          { exampleDefaultRecord with log_features := false }).out0 = true :=
  log_field_unused {} (some false) (some true) 16000 FeatureType.mel_spectrogram
    exampleArgs { exampleDefaultRecord with log_features := false } (by rfl)

end DaliDataset
